import Mathlib

/-!
Verification of the credit-ledger and payment-reconciliation core of the
DeelrzCRM repository, shallowly embedded from `src/server/storage.ts`,
`src/server/routes.ts` and `src/shared/schema.ts`.

Monetary columns are Postgres `decimal(10,2)`; the server passes their values
around as decimal strings and converts with JavaScript `parseFloat`,
`toFixed(2)` and `Math.round`.  In this embedding a monetary value is an exact
integer count of thousandths of a currency unit (`Int`, e.g. `85.50` is `85500`): every decimal
string appearing in the claims, the seed data and the scenarios has at most
three decimal places, and the values stored in `decimal(10,2)` columns are
whole cents, i.e. multiples of 10 thousandths (`IsCents`).  `parseFloat` is
modelled as exact: for values of `decimal(10,2)` magnitude the binary-double
representation error is below 5e-9, which never changes the output of
`toFixed(2)` or the result of a comparison between distinct thousandths,
except exactly at half-cent ties (where the double sits marginally below the
tie); none of the concrete inputs used below sit on a tie.  `toFixed(2)` and
`Math.round` round to the nearest candidate, ties towards +∞ (ECMAScript
picks the larger candidate).
-/

deriving instance DecidableEq for Except

namespace DeelrzCRM

/-- JavaScript `x.toFixed(2)` on a monetary value, re-read with `parseFloat`:
round to the nearest whole cent, ties towards +∞. -/
def toFixed2 (m : Int) : Int := ((m + 5) / 10) * 10

/-- JavaScript `Math.round (num / den)` for a positive denominator:
round to the nearest integer, ties towards +∞. -/
def jsRound (num den : Int) : Int := (2 * num + den) / (2 * den)

/-- The value is a whole number of cents, i.e. representable in the
`decimal(10,2)` columns of `src/shared/schema.ts` without rounding. -/
def IsCents (m : Int) : Prop := (10 : Int) ∣ m

instance (m : Int) : Decidable (IsCents m) := by unfold IsCents; infer_instance

/-! ### Data model (`src/shared/schema.ts`) -/

/-- `creditStatusEnum` -/
inductive CreditStatus | active | suspended | frozen
deriving DecidableEq

/-- `creditTransactionStatusEnum` -/
inductive CreditTxStatus | pending | paid | overdue
deriving DecidableEq

/-- A row of the `credits` table.  Note: the table declares only the
non-unique indexes `idx_credits_tenant` and `idx_credits_customer`;
there is no unique constraint on `(tenant_id, customer_id)`. -/
structure Credit where
  id : String
  tenantId : String
  customerId : String
  limitAmount : Int
  balance : Int
  status : CreditStatus
  updatedAt : Nat
deriving DecidableEq

/-- A row of the `credit_transactions` table. -/
structure CreditTransaction where
  id : String
  tenantId : String
  customerId : String
  orderId : Option String
  amount : Int
  fee : Int
  dueDate : Option Nat
  paidDate : Option Nat
  status : CreditTxStatus
  createdAt : Nat
deriving DecidableEq

/-- `insertCreditTransactionSchema` payload (id and createdAt omitted;
drizzle-zod maps the decimal columns to plain strings, so `amount` may denote
any decimal number — e.g. `100.004` — not only whole cents). -/
structure InsertCreditTransaction where
  tenantId : String
  customerId : String
  orderId : Option String := none
  amount : Int
  fee : Int := 0
  dueDate : Option Nat := none
  paidDate : Option Nat := none
  status : CreditTxStatus := .pending
deriving DecidableEq

/-- `insertCreditSchema` payload. -/
structure InsertCredit where
  tenantId : String
  customerId : String
  limitAmount : Int
  balance : Int := 0
  status : CreditStatus := .active
deriving DecidableEq

/-- `paymentStatusEnum` -/
inductive PaymentStatus | pending | completed | failed | refunded
deriving DecidableEq

/-- `paymentMethodEnum` -/
inductive PaymentMethod | card | cash | custom | transfer | ach
deriving DecidableEq

/-- The `updateData` object the `POST /confirm-payment` handler assembles and
passes to `updatePaymentStatus` as the `metadata` argument. -/
structure ConfirmUpdateData where
  status : PaymentStatus
  chargeId : Option String := none
  failureReason : Option String := none
deriving DecidableEq

/-- Shapes actually written into the `payments.metadata` jsonb column by the
handlers in `src/server/routes.ts` (`refundAmountCents` is Stripe's
`refund.amount`; the handler stores `refund.amount / 100`). -/
inductive PaymentMeta
  | confirmData (u : ConfirmUpdateData)
  | refundData (refundId : String) (refundAmountCents : Int) (refundReason : Option String)
deriving DecidableEq

/-- A row of the `payments` table. -/
structure Payment where
  id : String
  tenantId : String
  orderId : Option String := none
  customerId : Option String := none
  amount : Int
  currency : String := "usd"
  status : PaymentStatus := .pending
  method : PaymentMethod
  paymentIntentId : Option String := none
  chargeId : Option String := none
  transferId : Option String := none
  refundId : Option String := none
  failureReason : Option String := none
  notes : Option String := none
  metadata : Option PaymentMeta := none
  applicationFeeBps : Int := 0
  processingFeeCents : Int := 0
  createdBy : String
  createdAt : Nat := 0
  updatedAt : Nat := 0
deriving DecidableEq

/-- A row of the `webhook_events` table (`event_id` carries a unique
constraint, used as the idempotency key). -/
structure WebhookEvent where
  id : String
  eventId : String
  eventType : String
  processed : Bool
  createdAt : Nat
deriving DecidableEq

/-- The tenant-scoped store: the tables the core touches, plus the id sets the
foreign keys of `credits` reference. -/
structure Storage where
  tenants : List String := []
  customers : List String := []
  credits : List Credit := []
  creditTransactions : List CreditTransaction := []
  payments : List Payment := []
  webhookEvents : List WebhookEvent := []
deriving DecidableEq

/-! ### Credit ledger (`src/server/storage.ts`) -/

/-- Errors thrown by `DatabaseStorage.createCreditTransaction`.  The source
throws `Error` with an interpolated message; `limitExceeded` records the three
values interpolated into it (current balance, limit, requested amount). -/
inductive CreditError
  | noCreditAccount (customerId : String)
  | limitExceeded (current limit requested : Int)
deriving DecidableEq

/-- The `tx.select().from(credits).where(customerId ∧ tenantId)` lookup,
destructured to its first row. -/
def findCredit (s : Storage) (customerId tenantId : String) : Option Credit :=
  s.credits.find? fun c => c.customerId == customerId && c.tenantId == tenantId

/-- Body of the `db.transaction` callback in
`DatabaseStorage.createCreditTransaction` (storage.ts:628-671), acting on a
draft store: find the account, insert the transaction row, compute
`newBalance = (parseFloat(balance) + parseFloat(amount)).toFixed(2)`, throw if
`parseFloat(newBalance) > parseFloat(limitAmount)`, otherwise write the new
balance.  `newId`/`now` stand for the database-generated uuid and timestamp. -/
def creditTxBody (txn : InsertCreditTransaction) (newId : String) (now : Nat)
    (s : Storage) : Except CreditError (CreditTransaction × Storage) :=
  match findCredit s txn.customerId txn.tenantId with
  | none => .error (.noCreditAccount txn.customerId)
  | some creditAccount =>
    let newTransaction : CreditTransaction :=
      { id := newId, tenantId := txn.tenantId, customerId := txn.customerId,
        orderId := txn.orderId, amount := txn.amount, fee := txn.fee,
        dueDate := txn.dueDate, paidDate := txn.paidDate, status := txn.status,
        createdAt := now }
    let s1 := { s with creditTransactions := s.creditTransactions ++ [newTransaction] }
    let currentBalance := creditAccount.balance
    let transactionAmount := txn.amount
    let newBalance := toFixed2 (currentBalance + transactionAmount)
    let creditLimit := creditAccount.limitAmount
    if newBalance > creditLimit then
      .error (.limitExceeded currentBalance creditLimit transactionAmount)
    else
      .ok (newTransaction,
        { s1 with credits := s1.credits.map fun c =>
            if c.id == creditAccount.id then
              { c with balance := newBalance, updatedAt := now }
            else c })

/-- `db.transaction`: run the body against the current store; a thrown error
rolls every draft write back, so the caller's store is unchanged on the error
path. -/
def dbTransaction {α : Type} (body : Storage → Except CreditError (α × Storage))
    (s : Storage) : Except CreditError α × Storage :=
  match body s with
  | .ok (a, s2) => (.ok a, s2)
  | .error e => (.error e, s)

/-- `DatabaseStorage.createCreditTransaction` (storage.ts:628-671). -/
def createCreditTransaction (txn : InsertCreditTransaction) (newId : String)
    (now : Nat) (s : Storage) : Except CreditError CreditTransaction × Storage :=
  dbTransaction (creditTxBody txn newId now) s

/-- `DatabaseStorage.updateCreditBalance` (storage.ts:673-683): set
`balance = newBalance` on the row matching `(creditId, tenantId)`; no limit
check of any kind.  Returns the updated row, `none` when nothing matched. -/
def updateCreditBalance (creditId tenantId : String) (newBalance : Int)
    (now : Nat) (s : Storage) : Option Credit × Storage :=
  let credits2 := s.credits.map fun c =>
    if c.id == creditId && c.tenantId == tenantId then
      { c with balance := newBalance, updatedAt := now }
    else c
  (credits2.find? (fun c => c.id == creditId && c.tenantId == tenantId),
   { s with credits := credits2 })

/-- Result of `PUT /credit/:creditId/balance`. -/
inductive UpdateBalanceResult
  | ok (c : Credit)
  | badRequest
  | notFound
deriving DecidableEq

/-- The `PUT /credit/:creditId/balance` handler (routes.ts:576-623): the
balance must be a numeric string (`none` models a non-numeric body), must be
`≥ 0`, and the creditId must be uuid-shaped; the only precondition on the
value itself is non-negativity. -/
def updateCreditBalanceRoute (tenantId creditId : String) (balance : Option Int)
    (validUuid : Bool) (now : Nat) (s : Storage) : UpdateBalanceResult × Storage :=
  match balance with
  | none => (.badRequest, s)
  | some b =>
    if b < 0 then (.badRequest, s)
    else if !validUuid then (.badRequest, s)
    else
      match updateCreditBalance creditId tenantId b now s with
      | (none, s2) => (.notFound, s2)
      | (some c, s2) => (.ok c, s2)

/-- Database-level errors surfaced to `POST /credit` (Postgres error codes
23505 and 23503). -/
inductive DbError
  | uniqueViolation
  | foreignKeyViolation
deriving DecidableEq

/-- `DatabaseStorage.createCredit` (storage.ts:623-626): a bare insert.  The
database enforces the foreign keys `credits.tenant_id → tenants` and
`credits.customer_id → customers`; the `credits` table declares no unique
constraint besides the `id` primary key (schema.ts:295-307 lists only
non-unique indexes), so a duplicate `(tenant, customer)` insert succeeds. -/
def createCredit (c : InsertCredit) (newId : String) (now : Nat) (s : Storage) :
    Except DbError (Credit × Storage) :=
  if ¬ (s.tenants.contains c.tenantId && s.customers.contains c.customerId) then
    .error .foreignKeyViolation
  else
    let row : Credit :=
      { id := newId, tenantId := c.tenantId, customerId := c.customerId,
        limitAmount := c.limitAmount, balance := c.balance, status := c.status,
        updatedAt := now }
    .ok (row, { s with credits := s.credits ++ [row] })

/-- Result of `POST /credit`. -/
inductive CreateCreditResult
  | created (c : Credit)
  | conflict
  | badRequestFk
deriving DecidableEq

/-- The `POST /credit` handler (routes.ts:485-520): maps a 23505 duplicate to
409 Conflict and a 23503 foreign-key failure to 400. -/
def createCreditRoute (c : InsertCredit) (newId : String) (now : Nat)
    (s : Storage) : CreateCreditResult × Storage :=
  match createCredit c newId now s with
  | .error .uniqueViolation => (.conflict, s)
  | .error .foreignKeyViolation => (.badRequestFk, s)
  | .ok (row, s2) => (.created row, s2)

/-! ### Payment reconciler (`src/server/storage.ts`, `src/server/routes.ts`) -/

/-- `DatabaseStorage.getPayments` restricted to the fields the handlers use:
the tenant's payments (the source additionally orders by `createdAt`
descending and joins the customer name; the claims below do not depend on the
ordering of distinct payments). -/
def getPayments (s : Storage) (tenantId : String) : List Payment :=
  s.payments.filter fun p => p.tenantId == tenantId

/-- `DatabaseStorage.updatePaymentStatus` (storage.ts:802-813): a single
`update` that sets `status`, `metadata` (to the argument when supplied,
`null` otherwise — `metadata || null` — never merging with the prior value)
and `updatedAt`, scoped by `(paymentId, tenantId)`; no other column is
touched.  Returns the updated row, `none` when nothing matched. -/
def updatePaymentStatus (paymentId tenantId : String) (status : PaymentStatus)
    (metadata : Option PaymentMeta) (now : Nat) (s : Storage) :
    Option Payment × Storage :=
  let payments2 := s.payments.map fun p =>
    if p.id == paymentId && p.tenantId == tenantId then
      { p with status := status, metadata := metadata, updatedAt := now }
    else p
  (payments2.find? (fun p => p.id == paymentId && p.tenantId == tenantId),
   { s with payments := payments2 })

/-- Stripe's answer to `stripe.paymentIntents.create`. -/
structure StripeIntent where
  id : String
  clientSecret : String
deriving DecidableEq

/-- Result of `POST /create-payment-intent`. -/
inductive CreateIntentResult
  | ok (clientSecret paymentId paymentIntentId : String)
  | serviceUnavailable
  | badRequestAmount
  | gatewayError
deriving DecidableEq

/-- The `POST /create-payment-intent` handler (routes.ts:737-813).
`stripeEnabled` is the `STRIPE_ENABLED && stripe` guard; `amount = none`
models a missing/non-numeric body amount (`!amount`); `feeBps` is the
tenant's `applicationFeeBps` payment setting (a read); `gw` is the outcome
the Stripe call would have (`.error` = the call throws/times out).  The
returned `Bool` records whether the Stripe call was reached.  The local
insert (`storage.createPayment`) happens only after a successful gateway
call; the `catch` of a gateway failure returns 500 without touching the
store. -/
def createPaymentIntentRoute (stripeEnabled : Bool) (tenantId : String)
    (amount : Option Int) (currency : String)
    (customerId orderId description : Option String) (userId : String)
    (feeBps : Int) (gw : Except String StripeIntent) (newId : String)
    (now : Nat) (s : Storage) : CreateIntentResult × Storage × Bool :=
  if !stripeEnabled then (.serviceUnavailable, s, false)
  else
    match amount with
    | none => (.badRequestAmount, s, false)
    | some a =>
      if a ≤ 0 then (.badRequestAmount, s, false)
      else
        match gw with
        | .error _ => (.gatewayError, s, true)
        | .ok intent =>
          let payment : Payment :=
            { id := newId, tenantId := tenantId, customerId := customerId,
              orderId := orderId, amount := toFixed2 a, currency := currency,
              status := .pending, method := .card,
              paymentIntentId := some intent.id, notes := description,
              applicationFeeBps := feeBps,
              processingFeeCents :=
                if feeBps > 0 then jsRound (a * feeBps) 100000 else 0,
              createdBy := userId, createdAt := now, updatedAt := now }
          (.ok intent.clientSecret newId intent.id,
           { s with payments := s.payments ++ [payment] }, true)

/-- Request body of `POST /confirm-payment`. -/
structure ConfirmBody where
  paymentIntentId : Option String
  status : Option PaymentStatus := none
  chargeId : Option String := none
  failureReason : Option String := none
deriving DecidableEq

/-- Result of `POST /confirm-payment`. -/
inductive ConfirmResult
  | ok (p : Payment)
  | badRequest
  | notFound
  | serverError
deriving DecidableEq

/-- The `POST /confirm-payment` handler (routes.ts:815-861): find the
tenant's payment by `paymentIntentId`, assemble `updateData` (status from the
body, default `"completed"`; a present `failureReason` forces `"failed"`),
and unconditionally persist via `updatePaymentStatus`, passing `updateData`
itself as the `metadata` argument.  There is no terminal-state check and no
gateway call.  (The `serverError` branch is unreachable for stores whose
payment ids are unique: the row was just found.) -/
def confirmPaymentRoute (tenantId : String) (body : ConfirmBody) (now : Nat)
    (s : Storage) : ConfirmResult × Storage :=
  match body.paymentIntentId with
  | none => (.badRequest, s)
  | some pid =>
    match (getPayments s tenantId).find? (fun p => p.paymentIntentId == some pid) with
    | none => (.notFound, s)
    | some payment =>
      let status :=
        if body.failureReason.isSome then PaymentStatus.failed
        else body.status.getD .completed
      let updateData : ConfirmUpdateData :=
        { status := status, chargeId := body.chargeId,
          failureReason := body.failureReason }
      match updatePaymentStatus payment.id tenantId status
          (some (.confirmData updateData)) now s with
      | (some updated, s2) => (.ok updated, s2)
      | (none, s2) => (.serverError, s2)

/-- Stripe's answer to `stripe.refunds.create` (`amountCents` is Stripe's
`refund.amount`, in cents). -/
structure StripeRefund where
  id : String
  amountCents : Int
deriving DecidableEq

/-- Result of `POST /refund-payment`.  `amountCents` in `ok` is Stripe's
`refund.amount` (the handler responds with `refund.amount / 100`). -/
inductive RefundResult
  | ok (refundId : String) (amountCents : Int)
  | serviceUnavailable
  | badRequestNoPaymentId
  | notFound
  | notCompleted
  | noChargeId
  | gatewayError
deriving DecidableEq

/-- The `POST /refund-payment` handler (routes.ts:863-930): refuse unless the
payment's status is `completed` ("Can only refund completed payments") and it
carries a `chargeId` in the `payments.charge_id` column ("No charge ID found
for refund"); only then call Stripe and persist `refunded` with the refund
details as the new metadata. -/
def refundPaymentRoute (stripeEnabled : Bool) (tenantId : String)
    (paymentId : Option String) (reason : Option String)
    (gw : Except String StripeRefund) (now : Nat) (s : Storage) :
    RefundResult × Storage :=
  if !stripeEnabled then (.serviceUnavailable, s)
  else
    match paymentId with
    | none => (.badRequestNoPaymentId, s)
    | some pid =>
      match (getPayments s tenantId).find? (fun p => p.id == pid) with
      | none => (.notFound, s)
      | some payment =>
        if payment.status ≠ .completed then (.notCompleted, s)
        else
          match payment.chargeId with
          | none => (.noChargeId, s)
          | some _ =>
            match gw with
            | .error _ => (.gatewayError, s)
            | .ok refund =>
              let s2 := (updatePaymentStatus payment.id tenantId .refunded
                (some (.refundData refund.id refund.amountCents reason)) now s).2
              (.ok refund.id refund.amountCents, s2)

/-! ### Webhook handling

Modelled from the spec: the repository source under `src/` contains no
webhook route handler — only the `webhookEvents` dedup table and its insert
schema in `src/shared/schema.ts` — so `handleWebhookEvent` and its dispatch
step follow spec §4.2 (`handleWebhookEvent(rawEvent, signature)`) word for
word: verify the signature first; short-circuit with a "skipped" indicator
when the event id is already recorded as processed; record the event
`processed=false` before dispatching; dispatch payment-intent
succeeded/failed events to the matching tenant payment (no-op when nothing
matches, and for unrecognized types); mark `processed=true` only after the
dispatch step completes without throwing, letting a dispatch failure
propagate. -/

/-- Event classification used by the dispatch step (spec §4.2 step 4). -/
inductive WebhookKind
  | paymentIntentSucceeded
  | paymentIntentFailed
  | other
deriving DecidableEq

/-- A verified gateway event, as the dispatch step consumes it. -/
structure StripeEvent where
  eventId : String
  eventType : String
  kind : WebhookKind
  tenantId : Option String := none
  paymentIntentId : Option String := none
  chargeId : Option String := none
  failureReason : Option String := none
deriving DecidableEq

/-- Result of `handleWebhookEvent`. -/
inductive WebhookResult
  | applied
  | skippedAlreadyProcessed
  | unauthenticated
  | dispatchError
deriving DecidableEq

/-- Modelled from the spec: §4.2 step 4 — on payment_intent succeeded/failed,
locate the tenant's payment by `paymentIntentId` and update its status,
capturing the charge id resp. the failure reason; missing tenant, missing
payment and unrecognized event types are no-ops. -/
def dispatchWebhookEvent (e : StripeEvent) (now : Nat) (s : Storage) : Storage :=
  match e.kind with
  | .paymentIntentSucceeded =>
    match e.tenantId, e.paymentIntentId with
    | some t, some pid =>
      { s with payments := s.payments.map fun p =>
          if p.tenantId == t && p.paymentIntentId == some pid then
            { p with status := .completed, chargeId := e.chargeId, updatedAt := now }
          else p }
    | _, _ => s
  | .paymentIntentFailed =>
    match e.tenantId, e.paymentIntentId with
    | some t, some pid =>
      { s with payments := s.payments.map fun p =>
          if p.tenantId == t && p.paymentIntentId == some pid then
            { p with status := .failed, failureReason := e.failureReason, updatedAt := now }
          else p }
    | _, _ => s
  | .other => s

/-- Modelled from the spec: §4.2 `handleWebhookEvent`.  `sigValid` is the
outcome of the signature verification; `dispatchFails` models a store failure
thrown inside the dispatch step (step 4), which must propagate while leaving
the event recorded with `processed = false`. -/
def handleWebhookEvent (sigValid : Bool) (e : StripeEvent)
    (dispatchFails : Bool) (newId : String) (now : Nat) (s : Storage) :
    WebhookResult × Storage :=
  if !sigValid then (.unauthenticated, s)
  else
    match s.webhookEvents.find? (fun w => w.eventId == e.eventId) with
    | some w =>
      if w.processed then (.skippedAlreadyProcessed, s)
      else
        if dispatchFails then (.dispatchError, s)
        else
          let s2 := dispatchWebhookEvent e now s
          (.applied,
           { s2 with webhookEvents := s2.webhookEvents.map fun v =>
               if v.eventId == e.eventId then { v with processed := true } else v })
    | none =>
      let row : WebhookEvent :=
        { id := newId, eventId := e.eventId, eventType := e.eventType,
          processed := false, createdAt := now }
      let s1 := { s with webhookEvents := s.webhookEvents ++ [row] }
      if dispatchFails then (.dispatchError, s1)
      else
        let s2 := dispatchWebhookEvent e now s1
        (.applied,
         { s2 with webhookEvents := s2.webhookEvents.map fun v =>
             if v.eventId == e.eventId then { v with processed := true } else v })

/-! ### Two concurrent `createCreditTransaction` calls

`DatabaseStorage.createCreditTransaction` reads the credit row with a plain
`tx.select()` — no `FOR UPDATE` row lock, no serializable isolation — inside a
`db.transaction` running at Postgres's default read-committed level.  Under
read committed, each transaction's select sees the latest committed row
version, its `newBalance` is computed in JavaScript from that snapshot, and
its insert + balance update become visible atomically at commit (a concurrent
update to the same row merely blocks until the lock holder commits, then
applies the already-computed SET value on top).  The model below exposes
exactly those two interaction points per call — the snapshot read and the
atomic commit of the writes computed from it — for two calls A and B against
the same store. -/

/-- Interaction points of the two concurrent calls. -/
inductive ConcEvent
  | readA
  | readB
  | commitA
  | commitB
deriving DecidableEq

/-- State of the two in-flight calls: the committed store, each call's
snapshot of the credit row its select returned, and each call's outcome. -/
structure ConcState where
  store : Storage
  snapA : Option Credit := none
  snapB : Option Credit := none
  resA : Option (Except CreditError Unit) := none
  resB : Option (Except CreditError Unit) := none
deriving DecidableEq

/-- Commit of one call, given the snapshot its body computed from: replay of
`creditTxBody`'s check and writes against the committed store.  On a limit
failure the transaction rolls back (no write); otherwise its row insert and
balance update (computed from the snapshot) commit together. -/
def concCommit (txn : InsertCreditTransaction) (newId : String) (now : Nat)
    (snap : Option Credit) (s : Storage) : Except CreditError Unit × Storage :=
  match snap with
  | none => (.error (.noCreditAccount txn.customerId), s)
  | some creditAccount =>
    let newBalance := toFixed2 (creditAccount.balance + txn.amount)
    if newBalance > creditAccount.limitAmount then
      (.error (.limitExceeded creditAccount.balance creditAccount.limitAmount txn.amount), s)
    else
      (.ok (),
       { s with
         creditTransactions := s.creditTransactions ++
           [{ id := newId, tenantId := txn.tenantId, customerId := txn.customerId,
              orderId := txn.orderId, amount := txn.amount, fee := txn.fee,
              dueDate := txn.dueDate, paidDate := txn.paidDate, status := txn.status,
              createdAt := now }],
         credits := s.credits.map fun c =>
           if c.id == creditAccount.id then
             { c with balance := newBalance, updatedAt := now }
           else c })

/-- One scheduler step for the pair of calls A (running `txnA`) and B
(running `txnB`). -/
def concStep (txnA txnB : InsertCreditTransaction) (idA idB : String) (now : Nat)
    (st : ConcState) : ConcEvent → ConcState
  | .readA => { st with snapA := findCredit st.store txnA.customerId txnA.tenantId }
  | .readB => { st with snapB := findCredit st.store txnB.customerId txnB.tenantId }
  | .commitA =>
    let (r, s2) := concCommit txnA idA now st.snapA st.store
    { st with store := s2, resA := some r }
  | .commitB =>
    let (r, s2) := concCommit txnB idB now st.snapB st.store
    { st with store := s2, resB := some r }

/-- Run a schedule (an interleaving of the four interaction points). -/
def runConc (txnA txnB : InsertCreditTransaction) (idA idB : String) (now : Nat)
    (s : Storage) (sched : List ConcEvent) : ConcState :=
  sched.foldl (concStep txnA txnB idA idB now) { store := s }

/-! ### Specification-side definitions -/

/-- The spec's exact-decimal limit check, stated in its words ("compute
`newBalance = currentBalance + amount`, and if `newBalance > limit`, abort",
with "comparisons for the limit check use exact decimal arithmetic"): the
exact sum, compared without any rounding.  Used only to compare the spec's
check with the code's `toFixed(2)`-rounded check. -/
def specExactExceedsLimit (balance amount limit : Int) : Prop :=
  limit < balance + amount

instance (b a l : Int) : Decidable (specExactExceedsLimit b a l) := by
  unfold specExactExceedsLimit; infer_instance

/-- The spec's credit-account invariant: `balance ≤ limit` for every account
of the store. -/
def CreditInvariant (s : Storage) : Prop :=
  ∀ c ∈ s.credits, c.balance ≤ c.limitAmount

instance (s : Storage) : Decidable (CreditInvariant s) := by
  unfold CreditInvariant; infer_instance

/-! ### Concrete data used by witnesses and counterexamples -/

/-- Scenario A's account: limit 100.00, balance 0.00. -/
def account100 : Credit :=
  { id := "cr1", tenantId := "t1", customerId := "c1",
    limitAmount := 100000, balance := 0, status := .active, updatedAt := 0 }

/-- A store holding only Scenario A's account. -/
def store100 : Storage :=
  { tenants := ["t1"], customers := ["c1"], credits := [account100] }

/-- Scenario A's first request: amount 85.50. -/
def txn8550 : InsertCreditTransaction :=
  { tenantId := "t1", customerId := "c1", amount := 85500 }

/-- Scenario A's second request: amount 20.00. -/
def txn2000 : InsertCreditTransaction :=
  { tenantId := "t1", customerId := "c1", amount := 20000 }

/-- The transaction row Scenario A's first call returns. -/
def tx8550row : CreditTransaction :=
  { id := "tx1", tenantId := "t1", customerId := "c1", orderId := none,
    amount := 85500, fee := 0, dueDate := none, paidDate := none,
    status := .pending, createdAt := 1 }

/-- Scenario A's account after the first call: balance 85.50. -/
def credit8550 : Credit := { account100 with balance := 85500, updatedAt := 1 }

/-- The store after Scenario A's first call. -/
def store8550 : Storage := (createCreditTransaction txn8550 "tx1" 1 store100).2

/-- A request whose amount, 100.004, has a sub-cent digit (the drizzle-zod
schema validates it as a plain string, so it reaches `parseFloat` as-is). -/
def txnSubCent : InsertCreditTransaction :=
  { tenantId := "t1", customerId := "c1", amount := 100004 }

/-- A store with the referenced tenant and customer but no credit account. -/
def store0 : Storage := { tenants := ["t1"], customers := ["c1"] }

/-- A credit-account creation request for `(t1, c1)` with limit 100.00. -/
def dupInsert : InsertCredit :=
  { tenantId := "t1", customerId := "c1", limitAmount := 100000 }

/-- Concurrent call A: amount 60.00 (individually within the 100.00 limit). -/
def txn60A : InsertCreditTransaction :=
  { tenantId := "t1", customerId := "c1", amount := 60000 }

/-- Concurrent call B: amount 60.00 (individually within the 100.00 limit). -/
def txn60B : InsertCreditTransaction :=
  { tenantId := "t1", customerId := "c1", amount := 60000 }

/-- The interleaving in which both calls read before either commits. -/
def lostUpdateRun : ConcState :=
  runConc txn60A txn60B "txA" "txB" 1 store100 [.readA, .readB, .commitA, .commitB]

/-- A card payment already in the terminal state `completed`. -/
def completedPayment : Payment :=
  { id := "p1", tenantId := "t1", amount := 50000, method := .card,
    status := .completed, paymentIntentId := some "pi_1", createdBy := "u1" }

/-- A store holding `completedPayment`. -/
def payStore : Storage := { tenants := ["t1"], payments := [completedPayment] }

/-- A confirm-payment body reporting a failure for `pi_1`. -/
def failBody : ConfirmBody :=
  { paymentIntentId := some "pi_1", failureReason := some "card_declined" }

/-- A confirm-payment body reporting success for `pi_1` with a charge id. -/
def confirmBody1 : ConfirmBody :=
  { paymentIntentId := some "pi_1", chargeId := some "ch_1" }

/-- A card payment still pending on intent `pi_1`. -/
def pendingPayment : Payment :=
  { id := "p1", tenantId := "t1", amount := 50000, method := .card,
    status := .pending, paymentIntentId := some "pi_1", createdBy := "u1" }

/-- A store holding `pendingPayment`. -/
def pendingStore : Storage := { tenants := ["t1"], payments := [pendingPayment] }

/-- A `payment_intent.succeeded` webhook event for `pi_1` in tenant `t1`. -/
def ev1 : StripeEvent :=
  { eventId := "evt_1", eventType := "payment_intent.succeeded",
    kind := .paymentIntentSucceeded, tenantId := some "t1",
    paymentIntentId := some "pi_1", chargeId := some "ch_1" }

/-! ### Helper lemmas -/

theorem find?_map_comm {α : Type} (f : α → α) (pr : α → Bool) (l : List α)
    (hf : ∀ x, pr (f x) = pr x) : (l.map f).find? pr = (l.find? pr).map f := by
  induction l with
  | nil => rfl
  | cons x xs ih =>
    by_cases hx : pr x = true
    · rw [List.map_cons, List.find?_cons_of_pos _ (by rw [hf]; exact hx),
        List.find?_cons_of_pos _ hx, Option.map_some']
    · rw [List.map_cons, List.find?_cons_of_neg _ (by rw [hf]; simpa using hx),
        List.find?_cons_of_neg _ (by simpa using hx), ih]

theorem find?_key_nodup {α κ : Type} [DecidableEq κ] (key : α → κ) (pr : α → Bool)
    {l : List α} {p : α} (hnd : (l.map key).Nodup) (hmem : p ∈ l)
    (hpr : pr p = true) (hkey : ∀ x, pr x = true → key x = key p) :
    l.find? pr = some p := by
  induction l with
  | nil => cases hmem
  | cons x xs ih =>
    rw [List.map_cons, List.nodup_cons] at hnd
    rcases List.mem_cons.1 hmem with rfl | hmem'
    · exact List.find?_cons_of_pos _ hpr
    · by_cases hx : pr x = true
      · exact absurd (by rw [hkey x hx]; exact List.mem_map_of_mem key hmem') hnd.1
      · rw [List.find?_cons_of_neg _ (by simpa using hx)]
        exact ih hnd.2 hmem'

theorem toFixed2_eq_self {m : Int} (h : IsCents m) : toFixed2 m = m := by
  unfold IsCents at h
  unfold toFixed2
  omega

theorem isCents_add {a b : Int} (ha : IsCents a) (hb : IsCents b) :
    IsCents (a + b) := by
  unfold IsCents at ha hb ⊢
  omega

theorem dispatch_webhookEvents_eq (e : StripeEvent) (now : Nat) (s : Storage) :
    (dispatchWebhookEvent e now s).webhookEvents = s.webhookEvents := by
  rcases e with ⟨eid, ety, k, t, pid, ch, fr⟩
  cases k <;> cases t <;> cases pid <;> rfl

theorem findCredit_list_update (l : List Credit) (cust ten : String) (a : Credit)
    (nb : Int) (now : Nat)
    (hfind : l.find? (fun c => c.customerId == cust && c.tenantId == ten) = some a) :
    (l.map fun c =>
        if c.id == a.id then { c with balance := nb, updatedAt := now } else c).find?
      (fun c => c.customerId == cust && c.tenantId == ten) =
      some { a with balance := nb, updatedAt := now } := by
  rw [find?_map_comm _ _ _ (fun x => by by_cases hid : x.id == a.id <;> simp [hid])]
  rw [hfind, Option.map_some']
  simp

/-! ### Claims -/

/-- C1: for every sequence of `applyTransaction` calls on one credit account
(each call starts from the store the previous calls produced, so quantifying
over an arbitrary starting store covers every call of every sequence), the
account's balance never exceeds its limit after any call that returns
success; and any failing call — in particular `limitExceeded` — leaves the
store exactly as it was: the balance is unchanged and the Credit Transaction
row inserted inside the unit of work is not persisted (all-or-nothing). -/
theorem createCreditTransaction_invariant_and_rollback
    (txn : InsertCreditTransaction) (newId : String) (now : Nat) (s : Storage) :
    (∀ t s2, createCreditTransaction txn newId now s = (.ok t, s2) →
      ∀ c, findCredit s2 txn.customerId txn.tenantId = some c →
        c.balance ≤ c.limitAmount) ∧
    (∀ e s2, createCreditTransaction txn newId now s = (.error e, s2) → s2 = s) := by
  unfold createCreditTransaction dbTransaction creditTxBody
  cases hfind : findCredit s txn.customerId txn.tenantId with
  | none =>
    refine ⟨fun t s2 h => ?_, fun e s2 h => ?_⟩
    · simp [hfind] at h
    · simp only [hfind] at h
      exact (Prod.mk.injEq _ _ _ _ ▸ h).2.symm
  | some a =>
    by_cases hlim : toFixed2 (a.balance + txn.amount) > a.limitAmount
    · refine ⟨fun t s2 h => ?_, fun e s2 h => ?_⟩
      · simp [hfind, hlim] at h
      · simp only [hfind, if_pos hlim] at h
        exact (Prod.mk.injEq _ _ _ _ ▸ h).2.symm
    · refine ⟨fun t s2 h => ?_, fun e s2 h => ?_⟩
      · simp only [hfind, if_neg hlim] at h
        obtain ⟨-, hs2⟩ := Prod.mk.injEq _ _ _ _ ▸ h
        subst hs2
        intro c hc
        rw [findCredit] at hc
        rw [find?_map_comm _ _ _ (fun x => by
          by_cases hid : x.id == a.id <;> simp [hid])] at hc
        rw [findCredit] at hfind
        rw [hfind] at hc
        simp only [Option.map_some', Option.some.injEq] at hc
        subst hc
        simp only [beq_self_eq_true, if_pos]
        omega
      · simp [hfind, hlim] at h

/-- Witness for C1 at Scenario A's first call: applying 85.50 to the
limit-100.00 account succeeds and the resulting account satisfies
`balance ≤ limit`. -/
theorem createCreditTransaction_invariant_and_rollback_witness :
    credit8550.balance ≤ credit8550.limitAmount :=
  (createCreditTransaction_invariant_and_rollback txn8550 "tx1" 1 store100).1
    tx8550row store8550 (by decide) credit8550 (by decide)

/-- C2: on an existing account whose stored balance and requested amount are
exact cents (as `decimal(10,2)` values are), `applyTransaction` succeeds
exactly when `currentBalance + amount ≤ limit` — strictly above the limit
aborts, exactly at the limit succeeds — returning the inserted row and
setting `balance = currentBalance + amount`; the failing path returns
`limitExceeded` carrying the current balance, the limit and the requested
amount, leaving the store untouched. -/
theorem createCreditTransaction_limit_boundary
    (s : Storage) (txn : InsertCreditTransaction) (newId : String) (now : Nat)
    (a : Credit)
    (hfind : findCredit s txn.customerId txn.tenantId = some a)
    (hb : IsCents a.balance) (ha : IsCents txn.amount) :
    (a.balance + txn.amount ≤ a.limitAmount →
      (createCreditTransaction txn newId now s).1 =
        .ok { id := newId, tenantId := txn.tenantId, customerId := txn.customerId,
              orderId := txn.orderId, amount := txn.amount, fee := txn.fee,
              dueDate := txn.dueDate, paidDate := txn.paidDate,
              status := txn.status, createdAt := now } ∧
      ∀ c, findCredit (createCreditTransaction txn newId now s).2
          txn.customerId txn.tenantId = some c →
        c.balance = a.balance + txn.amount) ∧
    (a.limitAmount < a.balance + txn.amount →
      createCreditTransaction txn newId now s =
        (.error (.limitExceeded a.balance a.limitAmount txn.amount), s)) := by
  have hfix : toFixed2 (a.balance + txn.amount) = a.balance + txn.amount :=
    toFixed2_eq_self (isCents_add hb ha)
  constructor
  · intro hle
    have hlim : ¬ toFixed2 (a.balance + txn.amount) > a.limitAmount := by
      rw [hfix]; omega
    constructor
    · unfold createCreditTransaction dbTransaction creditTxBody
      simp only [hfind, if_neg hlim]
    · intro c hc
      unfold createCreditTransaction dbTransaction creditTxBody at hc
      simp only [hfind, if_neg hlim] at hc
      rw [findCredit] at hc
      rw [findCredit] at hfind
      rw [findCredit_list_update _ _ _ _ _ _ hfind] at hc
      obtain rfl := Option.some.injEq _ _ ▸ hc
      exact hfix
  · intro hgt
    have hlim : toFixed2 (a.balance + txn.amount) > a.limitAmount := by
      rw [hfix]; omega
    unfold createCreditTransaction dbTransaction creditTxBody
    simp only [hfind, if_pos hlim]

/-- Witness for C2: Scenario A — with limit 100.00 and balance 0.00, applying
85.50 succeeds leaving balance 85.50, and then applying 20.00 fails with
`limitExceeded(balance = 85.50, limit = 100.00, requested = 20.00)`, leaving
the store (hence the balance) unchanged. -/
theorem createCreditTransaction_limit_boundary_witness :
    ((createCreditTransaction txn8550 "tx1" 1 store100).1 = .ok tx8550row ∧
      ∀ c, findCredit store8550 "c1" "t1" = some c → c.balance = 85500) ∧
    createCreditTransaction txn2000 "tx2" 2 store8550 =
      (.error (.limitExceeded 85500 100000 20000), store8550) := by
  refine ⟨⟨?_, ?_⟩, ?_⟩
  · exact ((createCreditTransaction_limit_boundary store100 txn8550 "tx1" 1
      account100 (by decide) (by decide) (by decide)).1 (by decide)).1
  · intro c hc
    exact ((createCreditTransaction_limit_boundary store100 txn8550 "tx1" 1
      account100 (by decide) (by decide) (by decide)).1 (by decide)).2 c hc
  · exact (createCreditTransaction_limit_boundary store8550 txn2000 "tx2" 2
      credit8550 (by decide) (by decide) (by decide)).2 (by decide)

/-- C6, counterexample: the limit check of `createCreditTransaction` is not
exact decimal arithmetic.  The code parses with `parseFloat` and rounds the
sum with `toFixed(2)` before comparing; on the account with limit 100.00 and
balance 0.00, the request amount 100.004 (accepted by the drizzle-zod string
schema) yields the exact sum 100.004, which exceeds the limit under the
spec's exact-decimal comparison (`specExactExceedsLimit`), yet the call
succeeds and persists balance 100.00 — the rounded check accepted a sum
strictly above the limit. -/
theorem creditLimitCheck_not_exact_decimal :
    specExactExceedsLimit account100.balance txnSubCent.amount account100.limitAmount ∧
    (createCreditTransaction txnSubCent "tx1" 1 store100).1 =
      .ok { id := "tx1", tenantId := "t1", customerId := "c1", orderId := none,
            amount := 100004, fee := 0, dueDate := none, paidDate := none,
            status := .pending, createdAt := 1 } ∧
    (findCredit (createCreditTransaction txnSubCent "tx1" 1 store100).2
        "c1" "t1").map (fun c => c.balance) = some 100000 := by
  refine ⟨by decide, by decide, by decide⟩

/-- C6, amended: the credit-ledger arithmetic is `parseFloat` plus a
`toFixed(2)` rounding of the sum, not exact decimal arithmetic; however, for
balances and amounts that are whole cents — as every value stored in the
`decimal(10,2)` columns is — the rounded comparison decides exactly as the
spec's exact-decimal comparison, so the limit check is exact at the boundary
for cent-valued inputs, and the persisted balance is the exact sum.  (For
amounts with sub-cent digits the check compares the rounded sum, see the
counterexample.) -/
theorem creditLimitCheck_exact_on_cents
    (s : Storage) (txn : InsertCreditTransaction) (newId : String) (now : Nat)
    (a : Credit)
    (hfind : findCredit s txn.customerId txn.tenantId = some a)
    (hb : IsCents a.balance) (ha : IsCents txn.amount) :
    ((createCreditTransaction txn newId now s).1 =
        .error (.limitExceeded a.balance a.limitAmount txn.amount) ↔
      specExactExceedsLimit a.balance txn.amount a.limitAmount) ∧
    (∀ c, findCredit (createCreditTransaction txn newId now s).2
        txn.customerId txn.tenantId = some c →
      ¬ specExactExceedsLimit a.balance txn.amount a.limitAmount →
      c.balance = a.balance + txn.amount) := by
  have hfix : toFixed2 (a.balance + txn.amount) = a.balance + txn.amount :=
    toFixed2_eq_self (isCents_add hb ha)
  constructor
  · constructor
    · intro h
      by_contra hnot
      unfold specExactExceedsLimit at hnot
      have hlim : ¬ toFixed2 (a.balance + txn.amount) > a.limitAmount := by
        rw [hfix]; omega
      unfold createCreditTransaction dbTransaction creditTxBody at h
      simp [hfind, if_neg hlim] at h
    · intro h
      unfold specExactExceedsLimit at h
      have hlim : toFixed2 (a.balance + txn.amount) > a.limitAmount := by
        rw [hfix]; omega
      unfold createCreditTransaction dbTransaction creditTxBody
      simp only [hfind, if_pos hlim]
  · intro c hc hnot
    unfold specExactExceedsLimit at hnot
    have hlim : ¬ toFixed2 (a.balance + txn.amount) > a.limitAmount := by
      rw [hfix]; omega
    unfold createCreditTransaction dbTransaction creditTxBody at hc
    simp only [hfind, if_neg hlim] at hc
    rw [findCredit] at hc
    rw [findCredit] at hfind
    rw [findCredit_list_update _ _ _ _ _ _ hfind] at hc
    obtain rfl := Option.some.injEq _ _ ▸ hc
    exact hfix

/-- Witness for C6's amended theorem at Scenario A's data: for the
cent-valued request 85.50 on the limit-100.00 balance-0.00 account, the
code's decision coincides with the exact-decimal check (which does not flag
it), and the persisted balance is the exact sum 85.50. -/
theorem creditLimitCheck_exact_on_cents_witness :
    ((createCreditTransaction txn8550 "tx1" 1 store100).1 =
        .error (.limitExceeded 0 100000 85500) ↔
      specExactExceedsLimit 0 85500 100000) ∧
    ∀ c, findCredit store8550 "c1" "t1" = some c → c.balance = 85500 := by
  have h := creditLimitCheck_exact_on_cents store100 txn8550 "tx1" 1 account100
    (by decide) (by decide) (by decide)
  exact ⟨h.1, fun c hc => h.2 c hc (by decide)⟩

/-- C7, counterexample: the invariant `balance ≤ limit` is not maintained by
every permitted balance-mutating operation.  Starting from the invariant-
satisfying store with the limit-100.00 balance-0.00 account, the manual
override `PUT /credit/:creditId/balance` with the permitted value 500.00
(non-negative, numeric, uuid check passed) persists balance 500.00 > limit
100.00 — `updateCreditBalance` performs no limit check. -/
theorem updateBalance_breaks_limit_invariant :
    CreditInvariant store100 ∧
    updateCreditBalanceRoute "t1" "cr1" (some 500000) true 2 store100 =
      (.ok { account100 with balance := 500000, updatedAt := 2 },
       { store100 with credits := [{ account100 with balance := 500000, updatedAt := 2 }] }) ∧
    ¬ CreditInvariant
        (updateCreditBalanceRoute "t1" "cr1" (some 500000) true 2 store100).2 := by
  refine ⟨by decide, by decide, by decide⟩

/-- C7, amended: the invariant `balance ≤ limit` is preserved by
`applyTransaction` (on success the touched account ends within its limit, on
failure the store is unchanged), for any store whose credit-row ids are
unique, as the primary key guarantees; but `updateBalance` checks only
`newBalance ≥ 0` and can push a balance past the limit (see the
counterexample), so the invariant holds at all times only for sequences
restricted to `applyTransaction`. -/
theorem createCreditTransaction_preserves_invariant
    (txn : InsertCreditTransaction) (newId : String) (now : Nat) (s : Storage)
    (hnd : (s.credits.map (fun c => c.id)).Nodup)
    (hinv : CreditInvariant s) :
    CreditInvariant (createCreditTransaction txn newId now s).2 := by
  unfold createCreditTransaction dbTransaction creditTxBody
  cases hfind : findCredit s txn.customerId txn.tenantId with
  | none => simpa using hinv
  | some a =>
    by_cases hlim : toFixed2 (a.balance + txn.amount) > a.limitAmount
    · simpa [hfind, hlim] using hinv
    · simp only [hfind, if_neg hlim]
      unfold CreditInvariant
      intro c hc
      simp only [List.mem_map] at hc
      obtain ⟨x, hx, rfl⟩ := hc
      have hmem_a : a ∈ s.credits := by
        rw [findCredit] at hfind
        exact List.mem_of_find?_eq_some hfind
      by_cases hid : x.id == a.id
      · have hxa : x = a :=
          List.inj_on_of_nodup_map hnd hx hmem_a (by simpa using hid)
        subst hxa
        simp only [hid, if_pos]
        omega
      · simp only [hid]
        simpa using hinv x hx

/-- Witness for C7's amended theorem: the invariant holds after Scenario A's
first call. -/
theorem createCreditTransaction_preserves_invariant_witness :
    CreditInvariant store8550 :=
  createCreditTransaction_preserves_invariant txn8550 "tx1" 1 store100
    (by decide) (by decide)

/-- C8: the claim is right about the intent and the code is wrong.  The
`POST /credit` handler maps Postgres error 23505 to
409 "Credit account already exists for this customer", but
`src/shared/schema.ts` declares no unique constraint on
`credits (tenant_id, customer_id)` (only non-unique indexes), so the insert
never raises 23505: creating the same `(t1, c1)` account twice yields two
`created` responses and two persisted rows for the pair.  The claim's
foreign-key half does hold: an unresolved customer id fails with the
foreign-key error, mapped to 400. -/
theorem createCredit_duplicate_accounts_persist :
    (createCreditRoute dupInsert "cr1" 0 store0).1 =
      .created { id := "cr1", tenantId := "t1", customerId := "c1",
                 limitAmount := 100000, balance := 0, status := .active,
                 updatedAt := 0 } ∧
    (createCreditRoute dupInsert "cr2" 1
        (createCreditRoute dupInsert "cr1" 0 store0).2).1 =
      .created { id := "cr2", tenantId := "t1", customerId := "c1",
                 limitAmount := 100000, balance := 0, status := .active,
                 updatedAt := 1 } ∧
    ((createCreditRoute dupInsert "cr2" 1
        (createCreditRoute dupInsert "cr1" 0 store0).2).2.credits.filter
      (fun c => c.tenantId == "t1" && c.customerId == "c1")).length = 2 ∧
    (createCreditRoute { tenantId := "t1", customerId := "nobody",
                         limitAmount := 100000 } "cr3" 0 store0).1 =
      .badRequestFk := by
  refine ⟨by decide, by decide, by decide, by decide⟩

/-- C3, counterexample: an interleaving of two concurrent `applyTransaction`
calls in which both read the same `currentBalance` and both commit.
`createCreditTransaction` selects the credit row without `FOR UPDATE` at
read-committed isolation, so in the schedule readA, readB, commitA, commitB
both calls (60.00 each, individually within the 100.00 limit, jointly above
it) snapshot balance 0.00, both pass the check and both commit: two
transaction rows persist and the final balance is 60.00 — the second write
overwrote the first (lost update), not "exactly one succeeds". -/
theorem concurrent_applyTransaction_lost_update :
    txn60A.amount + account100.balance ≤ account100.limitAmount ∧
    txn60B.amount + account100.balance ≤ account100.limitAmount ∧
    account100.limitAmount < txn60A.amount + txn60B.amount + account100.balance ∧
    lostUpdateRun.snapA = some account100 ∧
    lostUpdateRun.snapB = some account100 ∧
    lostUpdateRun.resA = some (.ok ()) ∧
    lostUpdateRun.resB = some (.ok ()) ∧
    (findCredit lostUpdateRun.store "c1" "t1").map (fun c => c.balance) =
      some 60000 ∧
    lostUpdateRun.store.creditTransactions.length = 2 := by
  refine ⟨by decide, by decide, by decide, by decide, by decide, by decide,
    by decide, by decide, by decide⟩

/-- C3, amended: each `createCreditTransaction` call is individually atomic,
but the plain select provides no read consistency, so two concurrent calls
can both read the same balance and both commit (see the counterexample).
Only when the calls do not interleave — one commits before the other reads —
does the claimed outcome hold: with each cent-valued amount individually
within the limit and their sum above it, the first call succeeds, the second
fails with `limitExceeded` carrying the updated balance, and the final
balance reflects only the successful call. -/
theorem serial_applyTransaction_exactly_one
    (s : Storage) (txnA txnB : InsertCreditTransaction) (idA idB : String)
    (now : Nat) (a : Credit)
    (hfindA : findCredit s txnA.customerId txnA.tenantId = some a)
    (hcust : txnB.customerId = txnA.customerId)
    (hten : txnB.tenantId = txnA.tenantId)
    (hb : IsCents a.balance) (haA : IsCents txnA.amount) (haB : IsCents txnB.amount)
    (hwithinA : a.balance + txnA.amount ≤ a.limitAmount)
    (hwithinB : a.balance + txnB.amount ≤ a.limitAmount)
    (hsum : a.limitAmount < a.balance + txnA.amount + txnB.amount) :
    (runConc txnA txnB idA idB now s [.readA, .commitA, .readB, .commitB]).resA =
      some (.ok ()) ∧
    (runConc txnA txnB idA idB now s [.readA, .commitA, .readB, .commitB]).resB =
      some (.error (.limitExceeded (a.balance + txnA.amount) a.limitAmount
        txnB.amount)) ∧
    (findCredit (runConc txnA txnB idA idB now s
        [.readA, .commitA, .readB, .commitB]).store
      txnA.customerId txnA.tenantId).map (fun c => c.balance) =
      some (a.balance + txnA.amount) := by
  have hfixA : toFixed2 (a.balance + txnA.amount) = a.balance + txnA.amount :=
    toFixed2_eq_self (isCents_add hb haA)
  have hfixB : toFixed2 (a.balance + txnA.amount + txnB.amount) =
      a.balance + txnA.amount + txnB.amount :=
    toFixed2_eq_self (isCents_add (isCents_add hb haA) haB)
  have hlimA : ¬ toFixed2 (a.balance + txnA.amount) > a.limitAmount := by
    rw [hfixA]; omega
  have hlimB : toFixed2 (a.balance + txnA.amount + txnB.amount) >
      a.limitAmount := by
    rw [hfixB]; omega
  have hfind2 : ∀ (nb : Int),
      findCredit { s with
          creditTransactions := s.creditTransactions ++
            [{ id := idA, tenantId := txnA.tenantId, customerId := txnA.customerId,
               orderId := txnA.orderId, amount := txnA.amount, fee := txnA.fee,
               dueDate := txnA.dueDate, paidDate := txnA.paidDate,
               status := txnA.status, createdAt := now }],
          credits := s.credits.map fun c =>
            if c.id == a.id then { c with balance := nb, updatedAt := now }
            else c }
        txnA.customerId txnA.tenantId =
      some { a with balance := nb, updatedAt := now } := by
    intro nb
    rw [findCredit]
    rw [findCredit] at hfindA
    exact findCredit_list_update _ _ _ _ _ _ hfindA
  have hlimA2 : ¬ a.balance + txnA.amount > a.limitAmount := by omega
  have hlimB2 : a.balance + txnA.amount + txnB.amount > a.limitAmount := by omega
  simp only [runConc, List.foldl_cons, List.foldl_nil, concStep, hfindA,
    concCommit, if_neg hlimA, if_neg hlimA2, hcust, hten, hfixA, hfixB,
    hfind2, if_pos hlimB, if_pos hlimB2, Option.map_some']
  exact ⟨trivial, trivial, trivial⟩

theorem updatePaymentStatus_found (s : Storage) (t : String) (p : Payment)
    (st : PaymentStatus) (md : Option PaymentMeta) (now : Nat)
    (hnd : (s.payments.map (fun q => q.id)).Nodup)
    (hmem : p ∈ s.payments) (hpt : p.tenantId = t) :
    updatePaymentStatus p.id t st md now s =
      (some { p with status := st, metadata := md, updatedAt := now },
       { s with payments := s.payments.map fun q =>
           if q.id == p.id && q.tenantId == t then
             { q with status := st, metadata := md, updatedAt := now }
           else q }) := by
  unfold updatePaymentStatus
  refine Prod.ext ?_ rfl
  show (s.payments.map _).find? _ = _
  rw [find?_map_comm _ _ _ (fun x => by
    by_cases hx : (x.id == p.id && x.tenantId == t) = true <;> simp [hx])]
  rw [find?_key_nodup (fun q => q.id) _ hnd hmem
    (by simp [hpt]) (fun x hx => by
      simp only [Bool.and_eq_true, beq_iff_eq] at hx
      exact hx.1)]
  simp [hpt]

theorem getPayments_map (s : Storage) (t : String) (f : Payment → Payment)
    (hf : ∀ x, (f x).tenantId = x.tenantId) :
    getPayments { s with payments := s.payments.map f } t =
      (getPayments s t).map f := by
  unfold getPayments
  show (s.payments.map f).filter _ = _
  rw [List.filter_map]
  congr 1
  apply List.filter_congr
  intro x _
  simp [hf]

/-- Witness for C3's amended theorem at the counterexample's data under the
serial schedule: A commits 60.00, then B reads and fails `limitExceeded`. -/
theorem serial_applyTransaction_exactly_one_witness :
    (runConc txn60A txn60B "txA" "txB" 1 store100
        [.readA, .commitA, .readB, .commitB]).resA = some (.ok ()) ∧
    (runConc txn60A txn60B "txA" "txB" 1 store100
        [.readA, .commitA, .readB, .commitB]).resB =
      some (.error (.limitExceeded 60000 100000 60000)) ∧
    (findCredit (runConc txn60A txn60B "txA" "txB" 1 store100
        [.readA, .commitA, .readB, .commitB]).store "c1" "t1").map
      (fun c => c.balance) = some 60000 :=
  serial_applyTransaction_exactly_one store100 txn60A txn60B "txA" "txB" 1
    account100 (by decide) (by decide) (by decide) (by decide) (by decide)
    (by decide) (by decide) (by decide) (by decide)

/-- C4, counterexample: `confirmPayment` is not idempotent on terminal
payments.  The handler performs no terminal-state check: on a payment already
`completed`, a confirm call carrying a `failureReason` moves it to `failed`
(and rewrites `metadata` and `updatedAt`) — the payment is not returned
unchanged, and a terminal state is even exited. -/
theorem confirmPayment_mutates_terminal_payment :
    completedPayment.status = .completed ∧
    (confirmPaymentRoute "t1" failBody 6 payStore).1 =
      .ok { completedPayment with
            status := .failed,
            metadata := some (.confirmData
              { status := .failed, chargeId := none,
                failureReason := some "card_declined" }),
            updatedAt := 6 } ∧
    (confirmPaymentRoute "t1" failBody 6 payStore).1 ≠ .ok completedPayment := by
  refine ⟨by decide, by decide, by decide⟩


/-- Outcome of the `POST /confirm-payment` handler once the payment is found:
it unconditionally persists the body-derived status, with `updateData` itself
as the new metadata. -/
theorem confirmPaymentRoute_found
    (tenantId : String) (body : ConfirmBody) (pid : String) (now : Nat)
    (s : Storage) (p : Payment)
    (hnd : (s.payments.map (fun q => q.id)).Nodup)
    (hpi : body.paymentIntentId = some pid)
    (hfd : (getPayments s tenantId).find?
      (fun q => q.paymentIntentId == some pid) = some p) :
    confirmPaymentRoute tenantId body now s =
      (.ok { p with
             status := (if body.failureReason.isSome then PaymentStatus.failed
               else body.status.getD .completed),
             metadata := some (.confirmData
               { status := (if body.failureReason.isSome then PaymentStatus.failed
                   else body.status.getD .completed),
                 chargeId := body.chargeId,
                 failureReason := body.failureReason }),
             updatedAt := now },
       { s with
         payments := s.payments.map fun q =>
           if q.id == p.id && q.tenantId == tenantId then
             { q with
               status := (if body.failureReason.isSome then PaymentStatus.failed
                 else body.status.getD .completed),
               metadata := some (.confirmData
                 { status := (if body.failureReason.isSome then PaymentStatus.failed
                     else body.status.getD .completed),
                   chargeId := body.chargeId,
                   failureReason := body.failureReason }),
               updatedAt := now }
           else q }) := by
  have hmem_f : p ∈ getPayments s tenantId := List.mem_of_find?_eq_some hfd
  have hmem : p ∈ s.payments := (List.mem_filter.1 hmem_f).1
  have hpt : p.tenantId = tenantId := by
    have := (List.mem_filter.1 hmem_f).2
    simpa using this
  simp only [confirmPaymentRoute, hpi, hfd]
  rw [updatePaymentStatus_found s tenantId p _ _ now hnd hmem hpt]

/-- C4, amended: the handler applies the requested update unconditionally
(terminal or not), so a repeat of `confirmPayment` with the same arguments is
idempotent only up to `updatedAt`: on any store with unique payment ids, if
the first call returns a payment, the second call returns that payment with
every field identical except `updatedAt` — the status and metadata stabilise,
but each call performs a fresh mutation, and (per the counterexample) a
`failureReason` can move a terminal payment out of `completed`. -/
theorem confirmPayment_repeat_same_args
    (tenantId : String) (body : ConfirmBody) (now1 now2 : Nat) (s : Storage)
    (p1 : Payment) (s1 : Storage)
    (hnd : (s.payments.map (fun q => q.id)).Nodup)
    (h1 : confirmPaymentRoute tenantId body now1 s = (.ok p1, s1)) :
    ∃ s2, confirmPaymentRoute tenantId body now2 s1 =
      (.ok { p1 with updatedAt := now2 }, s2) := by
  cases hpi : body.paymentIntentId with
  | none => simp [confirmPaymentRoute, hpi] at h1
  | some pid =>
    cases hfd : (getPayments s tenantId).find?
        (fun q => q.paymentIntentId == some pid) with
    | none => simp [confirmPaymentRoute, hpi, hfd] at h1
    | some p =>
      rw [confirmPaymentRoute_found tenantId body pid now1 s p hnd hpi hfd] at h1
      simp only [Prod.mk.injEq, ConfirmResult.ok.injEq] at h1
      obtain ⟨rfl, rfl⟩ := h1
      have hmem_f : p ∈ getPayments s tenantId := List.mem_of_find?_eq_some hfd
      have hmem : p ∈ s.payments := (List.mem_filter.1 hmem_f).1
      have hpt : p.tenantId = tenantId := by
        simpa using (List.mem_filter.1 hmem_f).2
      have hids : ((s.payments.map fun q =>
          if q.id == p.id && q.tenantId == tenantId then
            { q with
              status := (if body.failureReason.isSome then PaymentStatus.failed
                else body.status.getD .completed),
              metadata := some (.confirmData
                { status := (if body.failureReason.isSome then PaymentStatus.failed
                    else body.status.getD .completed),
                  chargeId := body.chargeId,
                  failureReason := body.failureReason }),
              updatedAt := now1 }
          else q).map fun q => q.id) = s.payments.map fun q => q.id := by
        rw [List.map_map]
        apply List.map_congr_left
        intro x _
        by_cases hc : (x.id == p.id && x.tenantId == tenantId) = true
        · rw [Function.comp_apply, if_pos hc]
        · rw [Function.comp_apply, if_neg hc]
      have hnd2 : (((s.payments.map fun q =>
          if q.id == p.id && q.tenantId == tenantId then
            { q with
              status := (if body.failureReason.isSome then PaymentStatus.failed
                else body.status.getD .completed),
              metadata := some (.confirmData
                { status := (if body.failureReason.isSome then PaymentStatus.failed
                    else body.status.getD .completed),
                  chargeId := body.chargeId,
                  failureReason := body.failureReason }),
              updatedAt := now1 }
          else q).map fun q => q.id)).Nodup := by
        rw [hids]; exact hnd
      have hfd2 : (getPayments
          { s with
            payments := s.payments.map fun q =>
              if q.id == p.id && q.tenantId == tenantId then
                { q with
                  status := (if body.failureReason.isSome then PaymentStatus.failed
                    else body.status.getD .completed),
                  metadata := some (.confirmData
                    { status := (if body.failureReason.isSome then PaymentStatus.failed
                        else body.status.getD .completed),
                      chargeId := body.chargeId,
                      failureReason := body.failureReason }),
                  updatedAt := now1 }
              else q } tenantId).find?
            (fun q => q.paymentIntentId == some pid) =
          some { p with
                 status := (if body.failureReason.isSome then PaymentStatus.failed
                   else body.status.getD .completed),
                 metadata := some (.confirmData
                   { status := (if body.failureReason.isSome then PaymentStatus.failed
                       else body.status.getD .completed),
                     chargeId := body.chargeId,
                     failureReason := body.failureReason }),
                 updatedAt := now1 } := by
        rw [getPayments_map s tenantId _ (fun x => by
          by_cases hc : (x.id == p.id && x.tenantId == tenantId) = true
          · rw [if_pos hc]
          · rw [if_neg hc])]
        rw [find?_map_comm _ _ _ (fun x => by
          by_cases hc : (x.id == p.id && x.tenantId == tenantId) = true
          · rw [if_pos hc]
          · rw [if_neg hc])]
        rw [hfd]
        simp only [Option.map_some']
        rw [if_pos (by rw [hpt]; simp)]
      exact ⟨_, confirmPaymentRoute_found tenantId body pid now2 _ _ hnd2 hpi hfd2⟩

/-- Witness for C4's amended theorem: confirming `pi_1` twice with the same
body returns the same payment, the second time with only `updatedAt`
renewed. -/
theorem confirmPayment_repeat_same_args_witness :
    ∃ s2, confirmPaymentRoute "t1" confirmBody1 7
        (confirmPaymentRoute "t1" confirmBody1 6 payStore).2 =
      (.ok { completedPayment with
             status := .completed,
             metadata := some (.confirmData
               { status := .completed, chargeId := some "ch_1",
                 failureReason := none }),
             updatedAt := 7 }, s2) :=
  confirmPayment_repeat_same_args "t1" confirmBody1 6 7 payStore
    { completedPayment with
      status := .completed,
      metadata := some (.confirmData
        { status := .completed, chargeId := some "ch_1",
          failureReason := none }),
      updatedAt := 6 }
    (confirmPaymentRoute "t1" confirmBody1 6 payStore).2
    (by decide) (by decide)


/-- C5: once a webhook event has been applied, redelivering the same event id
— with any dispatch outcome — is short-circuited by the dedup record: the
second delivery returns the skipped indicator and leaves the store completely
unchanged (no re-dispatch, no second Payment mutation); and a dispatch
failure propagates while leaving the Webhook Event recorded with
`processed = false`, the signal for the gateway to retry. -/
theorem webhook_dedup_and_processed_flag
    (e : StripeEvent) (df2 : Bool) (id1 id2 : String) (n1 n2 : Nat)
    (s s1 : Storage)
    (h1 : handleWebhookEvent true e false id1 n1 s = (.applied, s1)) :
    handleWebhookEvent true e df2 id2 n2 s1 = (.skippedAlreadyProcessed, s1) ∧
    (∀ s2, handleWebhookEvent true e true id1 n1 s = (.dispatchError, s2) →
      ∃ w, s2.webhookEvents.find? (fun v => v.eventId == e.eventId) = some w ∧
        w.processed = false) := by
  have hmark : ∀ (l : List WebhookEvent) (w : WebhookEvent),
      l.find? (fun v => v.eventId == e.eventId) = some w →
      (l.map fun v =>
          if v.eventId == e.eventId then { v with processed := true } else v).find?
        (fun v => v.eventId == e.eventId) =
        some { w with processed := true } := by
    intro l w hw
    rw [find?_map_comm _ _ _ (fun x => by
      by_cases hc : (x.eventId == e.eventId) = true
      · rw [if_pos hc]
      · rw [if_neg hc])]
    rw [hw, Option.map_some']
    rw [if_pos (List.find?_some hw)]
  constructor
  · -- second delivery is skipped and mutates nothing
    have hfind1 : ∃ w, s1.webhookEvents.find?
        (fun v => v.eventId == e.eventId) = some w ∧ w.processed = true := by
      cases hf : s.webhookEvents.find? (fun v => v.eventId == e.eventId) with
      | some w =>
        by_cases hw : w.processed
        · simp [handleWebhookEvent, hf, hw] at h1
        · simp only [handleWebhookEvent, Bool.not_true, hf, hw, if_false,
            Bool.false_eq_true, if_neg, ite_false, Prod.mk.injEq] at h1
          obtain ⟨-, hs1⟩ := h1
          refine ⟨{ w with processed := true }, ?_, rfl⟩
          rw [← hs1]
          show ((dispatchWebhookEvent e n1 s).webhookEvents.map _).find? _ = _
          rw [dispatch_webhookEvents_eq]
          exact hmark _ _ hf
      | none =>
        simp only [handleWebhookEvent, Bool.not_true, hf, Bool.false_eq_true,
          if_false, ite_false, Prod.mk.injEq] at h1
        obtain ⟨-, hs1⟩ := h1
        refine ⟨{ id := id1, eventId := e.eventId, eventType := e.eventType,
                  processed := true, createdAt := n1 }, ?_, rfl⟩
        rw [← hs1]
        show ((dispatchWebhookEvent e n1 _).webhookEvents.map _).find? _ = _
        rw [dispatch_webhookEvents_eq]
        have : ({ s with webhookEvents := s.webhookEvents ++
            [{ id := id1, eventId := e.eventId, eventType := e.eventType,
               processed := false, createdAt := n1 }] } : Storage).webhookEvents.find?
            (fun v => v.eventId == e.eventId) =
            some { id := id1, eventId := e.eventId, eventType := e.eventType,
                   processed := false, createdAt := n1 } := by
          show (s.webhookEvents ++ _).find? _ = _
          rw [List.find?_append, hf]
          simp
        exact hmark _ _ this
    obtain ⟨w, hw, hwp⟩ := hfind1
    simp [handleWebhookEvent, hw, hwp]
  · -- a dispatch failure leaves the event recorded unprocessed
    intro s2 h2
    cases hf : s.webhookEvents.find? (fun v => v.eventId == e.eventId) with
    | some w =>
      by_cases hw : w.processed
      · simp [handleWebhookEvent, hf, hw] at h2
      · simp only [handleWebhookEvent, Bool.not_true, hf, hw, Bool.false_eq_true,
          if_false, ite_false, ite_true, if_true, Prod.mk.injEq] at h2
        obtain ⟨-, hs2⟩ := h2
        exact ⟨w, by rw [← hs2]; exact hf, by simpa using hw⟩
    | none =>
      simp only [handleWebhookEvent, Bool.not_true, hf, Bool.false_eq_true,
        if_false, ite_false, ite_true, if_true, Prod.mk.injEq] at h2
      obtain ⟨-, hs2⟩ := h2
      refine ⟨{ id := id1, eventId := e.eventId, eventType := e.eventType,
                processed := false, createdAt := n1 }, ?_, rfl⟩
      rw [← hs2]
      show (s.webhookEvents ++ _).find? _ = _
      rw [List.find?_append, hf]
      simp

/-- Witness for C5: a succeeded-intent event for `pi_1` applied once, then
redelivered — the second delivery is skipped with the store unchanged; and
when the dispatch of the same event throws, the recorded event row stays
unprocessed. -/
theorem webhook_dedup_and_processed_flag_witness :
    (handleWebhookEvent true ev1 false "we2" 4
        (handleWebhookEvent true ev1 false "we1" 3 pendingStore).2 =
      (.skippedAlreadyProcessed,
       (handleWebhookEvent true ev1 false "we1" 3 pendingStore).2)) ∧
    (∃ w, (handleWebhookEvent true ev1 true "we1" 3
        pendingStore).2.webhookEvents.find?
          (fun v => v.eventId == ev1.eventId) = some w ∧
      w.processed = false) := by
  have h := webhook_dedup_and_processed_flag ev1 false "we1" "we2" 3 4
    pendingStore (handleWebhookEvent true ev1 false "we1" 3 pendingStore).2
    (by decide)
  exact ⟨h.1, h.2 _ (by decide)⟩

/-- C9: with the gateway configured, `createPaymentIntent` rejects a missing
or non-positive amount before reaching the gateway and before any store
write; a gateway failure (error or timeout) surfaces as a gateway error with
no local Payment row persisted (no orphaned pending row); and on gateway
success exactly one row is appended, with status `pending` and the returned
intent id. -/
theorem createPaymentIntent_validation_no_orphan
    (tenantId : String) (amount : Option Int) (currency : String)
    (customerId orderId description : Option String) (userId : String)
    (feeBps : Int) (gw : Except String StripeIntent) (newId : String)
    (now : Nat) (s : Storage) :
    (amount = none →
      createPaymentIntentRoute true tenantId amount currency customerId orderId
        description userId feeBps gw newId now s = (.badRequestAmount, s, false)) ∧
    (∀ a, amount = some a → a ≤ 0 →
      createPaymentIntentRoute true tenantId amount currency customerId orderId
        description userId feeBps gw newId now s = (.badRequestAmount, s, false)) ∧
    (∀ g a, gw = .error g → amount = some a → 0 < a →
      createPaymentIntentRoute true tenantId amount currency customerId orderId
        description userId feeBps gw newId now s = (.gatewayError, s, true)) ∧
    (∀ intent a, gw = .ok intent → amount = some a → 0 < a →
      createPaymentIntentRoute true tenantId amount currency customerId orderId
        description userId feeBps gw newId now s =
        (.ok intent.clientSecret newId intent.id,
         { s with payments := s.payments ++
            [{ id := newId, tenantId := tenantId, customerId := customerId,
               orderId := orderId, amount := toFixed2 a, currency := currency,
               status := .pending, method := .card,
               paymentIntentId := some intent.id, notes := description,
               applicationFeeBps := feeBps,
               processingFeeCents :=
                 (if feeBps > 0 then jsRound (a * feeBps) 100000 else 0),
               createdBy := userId, createdAt := now, updatedAt := now }] },
         true)) := by
  refine ⟨?_, ?_, ?_, ?_⟩
  · rintro rfl; rfl
  · rintro a rfl hle
    simp [createPaymentIntentRoute, hle]
  · rintro g a rfl rfl hpos
    simp [createPaymentIntentRoute, (not_le.2 hpos : ¬ a ≤ 0)]
  · rintro intent a rfl rfl hpos
    simp [createPaymentIntentRoute, (not_le.2 hpos : ¬ a ≤ 0)]

/-- Witness for C9 on the success path: creating a 50.00 intent appends one
pending payment carrying the returned intent id. -/
theorem createPaymentIntent_validation_no_orphan_witness :
    createPaymentIntentRoute true "t1" (some 50000) "usd" none none none "u1" 0
        (.ok { id := "pi_1", clientSecret := "cs_1" }) "p1" 5 store0 =
      (.ok "cs_1" "p1" "pi_1",
       { store0 with payments := store0.payments ++
          [{ id := "p1", tenantId := "t1", customerId := none, orderId := none,
             amount := toFixed2 50000, currency := "usd", status := .pending,
             method := .card, paymentIntentId := some "pi_1", notes := none,
             applicationFeeBps := 0,
             processingFeeCents :=
               (if (0 : Int) > 0 then jsRound (50000 * 0) 100000 else 0),
             createdBy := "u1", createdAt := 5, updatedAt := 5 }] }, true) :=
  (createPaymentIntent_validation_no_orphan "t1" (some 50000) "usd" none none
      none "u1" 0 (.ok { id := "pi_1", clientSecret := "cs_1" }) "p1" 5
      store0).2.2.2
    { id := "pi_1", clientSecret := "cs_1" } 50000 rfl rfl (by decide)

/-- C10: `updatePaymentStatus` replaces the metadata column wholesale with
its argument (or null), and the confirm-payment path writes the gateway
charge id only inside that metadata JSON, never into `payments.charge_id`:
confirming a payment whose `chargeId` column is null marks it `completed`
with the charge id in metadata while `chargeId` stays null, and a subsequent
refund on it fails the missing-charge-id check even though it is
completed. -/
theorem paymentChargeId_only_in_metadata
    (tenantId pid : String) (body : ConfirmBody) (s : Storage) (p : Payment)
    (now now2 : Nat) (reason : Option String) (gw : Except String StripeRefund)
    (hnd : (s.payments.map (fun q => q.id)).Nodup)
    (hpi : body.paymentIntentId = some pid)
    (hfd : (getPayments s tenantId).find?
      (fun q => q.paymentIntentId == some pid) = some p)
    (hcharge : p.chargeId = none)
    (hfr : body.failureReason = none)
    (hst : body.status.getD .completed = .completed) :
    ∃ s1 p1, confirmPaymentRoute tenantId body now s = (.ok p1, s1) ∧
      p1.status = .completed ∧
      p1.chargeId = none ∧
      p1.metadata = some (.confirmData
        { status := .completed, chargeId := body.chargeId,
          failureReason := none }) ∧
      refundPaymentRoute true tenantId (some p1.id) reason gw now2 s1 =
        (.noChargeId, s1) := by
  have h1 := confirmPaymentRoute_found tenantId body pid now s p hnd hpi hfd
  refine ⟨_, _, h1, ?_, ?_, ?_, ?_⟩
  · show (if body.failureReason.isSome then PaymentStatus.failed
      else body.status.getD .completed) = .completed
    rw [hfr]
    exact hst
  · exact hcharge
  · show some (PaymentMeta.confirmData
      { status := (if body.failureReason.isSome then PaymentStatus.failed
          else body.status.getD .completed),
        chargeId := body.chargeId, failureReason := body.failureReason }) = _
    rw [hfr]
    simp only [Option.isSome_none, Bool.false_eq_true, if_false, hst]
  · -- the refunded lookup happens in the updated store
    have hmem_f : p ∈ getPayments s tenantId := List.mem_of_find?_eq_some hfd
    have hpt : p.tenantId = tenantId := by
      simpa using (List.mem_filter.1 hmem_f).2
    have hndf : ((getPayments s tenantId).map (fun q => q.id)).Nodup :=
      List.Nodup.sublist ((List.filter_sublist _).map _) hnd
    have hfd_id : (getPayments s tenantId).find? (fun q => q.id == p.id) =
        some p :=
      find?_key_nodup (fun q => q.id) _ hndf hmem_f (by simp)
        (fun x hx => by simpa using hx)
    show refundPaymentRoute true tenantId (some p.id) reason gw now2 _ = _
    simp only [refundPaymentRoute, Bool.not_true]
    rw [getPayments_map s tenantId _ (fun x => by
      by_cases hc : (x.id == p.id && x.tenantId == tenantId) = true
      · rw [if_pos hc]
      · rw [if_neg hc])]
    rw [find?_map_comm _ _ _ (fun x => by
      by_cases hc : (x.id == p.id && x.tenantId == tenantId) = true
      · rw [if_pos hc]
      · rw [if_neg hc])]
    rw [hfd_id]
    simp only [Option.map_some']
    rw [if_pos (show (p.id == p.id && p.tenantId == tenantId) = true by
      rw [hpt]; simp)]
    have hstatus : (if body.failureReason.isSome then PaymentStatus.failed
        else body.status.getD .completed) = .completed := by
      rw [hfr]; exact hst
    simp only [hstatus, hcharge]
    simp

/-- Witness for C10: the pending card payment on `pi_1` (no chargeId) is
confirmed completed with `ch_1` recorded only in metadata, and refunding it
then fails with the missing-charge-id error. -/
theorem paymentChargeId_only_in_metadata_witness :
    ∃ s1 p1, confirmPaymentRoute "t1" confirmBody1 9 pendingStore =
        (.ok p1, s1) ∧
      p1.status = .completed ∧
      p1.chargeId = none ∧
      p1.metadata = some (.confirmData
        { status := .completed, chargeId := confirmBody1.chargeId,
          failureReason := none }) ∧
      refundPaymentRoute true "t1" (some p1.id) none
          (.ok { id := "re_1", amountCents := 5000 }) 10 s1 =
        (.noChargeId, s1) :=
  paymentChargeId_only_in_metadata "t1" "pi_1" confirmBody1 pendingStore
    pendingPayment 9 10 none (.ok { id := "re_1", amountCents := 5000 })
    (by decide) (by decide) (by decide) (by decide) (by decide) (by decide)

end DeelrzCRM
